import Mathlib

/-!
Verification development for the finance-tracker-bot repository.

This file shallowly embeds the parts of the source relevant to the
specification's claims:

* `src/bot/currencies.py` — the free-text amount parser (currency extraction,
  numeric extraction, decimal/thousand-separator resolution);
* `src/utils.py` — the older-revision `currency_parser`, `check_auth`,
  `check_spreadsheet`, `remove_job_if_exists` and the flush task
  `add_to_spreadsheet`;
* `src/bot/models.py` / `src/bot/record.py` — the `Record` data model,
  its validator and the save/cancel transitions;
* `src/record.py` — the older-revision record conversation
  (`clear_data`, `cancel`, the handler tables and `map_to_parent`);
* `src/settings.py` — the schedule-setting conversation
  (`set_custom_schedule`, `set_default_schedule`).

Python regular expressions are embedded as hand-derived matching functions on
`List Char`; each carries a comment relating it to the source pattern,
including the backtracking order of the `re` engine where it matters.
Machine floats are modelled as rationals (all decimal literals appearing in
the claims are exactly representable and unaffected by binary rounding at the
granularity the claims use); a Python exception escaping a modelled function
is an `Option`/`none` (or a dedicated flag) at its boundary.
-/

namespace FinanceTracker

/-! ### Generic character and list helpers -/

/-- Python `\s` (`re.UNICODE` default): ASCII whitespace plus the
    non-breaking space. -/
def isPySpace (c : Char) : Bool :=
  c = ' ' ∨ c = '\t' ∨ c = '\n' ∨ c = '\r' ∨ c = '\x0b' ∨ c = '\x0c' ∨ c = '\u00A0'

/-- All lengths `a` such that the first `a` characters of the list satisfy `p`,
    in increasing order (the candidate consumption lengths of a `*` repetition
    over the character class `p`). -/
def prefixLens (p : Char → Bool) : List Char → List Nat
  | [] => [0]
  | c :: rest => 0 :: (if p c then (prefixLens p rest).map (· + 1) else [])

/-- First `some` produced by `f` along the list (the `re` engine's ordered
    choice over candidate alternatives). -/
def firstSome (f : Nat → Option α) : List Nat → Option α
  | [] => none
  | a :: rest =>
    match f a with
    | some b => some b
    | none => firstSome f rest

/-- Leftmost occurrence search: scan start positions left to right, at each
    position try the literals in order; models `re.search` of an alternation
    of escaped literal strings (`currencies.or_regex`). -/
def searchLits (lits : List (List Char)) : List Char → Option (List Char)
  | [] => lits.find? (·.isPrefixOf ([] : List Char))
  | c :: rest =>
    match lits.find? (·.isPrefixOf (c :: rest)) with
    | some l => some l
    | none => searchLits lits rest

/-- `str.strip()` restricted to a character predicate: drop matching
    characters from both ends. -/
def stripEnds (p : Char → Bool) (l : List Char) : List Char :=
  ((l.dropWhile p).reverse.dropWhile p).reverse

/-- True iff `pat` occurs as a contiguous substring. -/
def hasSubstr (pat l : List Char) : Bool :=
  (searchLits [pat] l).isSome

end FinanceTracker

namespace FinanceTracker

/-! ### `src/bot/currencies.py` -/

structure CurrencyInfo where
  code : String
  symbol : String
  aliases : List String
deriving DecidableEq

/-- The `CURRENCIES` table of `src/bot/currencies.py`. -/
def CURRENCIES : List CurrencyInfo :=
  [⟨"EUR", "€", ["€", "eur", "euro"]⟩,
   ⟨"USD", "$", ["us$", "usd", "dollar"]⟩,
   ⟨"CHF", "CHF", ["chf", "franc", "Sfr.", "sfr.", "Sfr", "sfr"]⟩,
   ⟨"GBP", "£", ["gbp", "pound", "UKP", "ukp", "quid", "sterling"]⟩]

def CURRENCIES_CODES : List String := CURRENCIES.map (·.code)

def CURRENCIES_SYMBOLS : List String := CURRENCIES.map (·.symbol)

/-- `CURRENCIES_ALIASES` is a Python `set` in the source; its iteration order
    is unspecified, so we fix the table order.  No theorem below depends on
    the relative order of two aliases matching at the same position. -/
def CURRENCIES_ALIASES : List String := (CURRENCIES.map (·.aliases)).flatten

/-- `currencies.extract_currency`: try the code, symbol and alias literal
    alternations in that order; `re.search` of each returns the leftmost
    match.  `if not amount: return None` covers the empty string. -/
def extract_currency (amount : String) : Option String :=
  if amount = "" then none
  else
    match searchLits (CURRENCIES_CODES.map String.data) amount.data with
    | some l => some (String.mk l)
    | none =>
      match searchLits (CURRENCIES_SYMBOLS.map String.data) amount.data with
      | some l => some (String.mk l)
      | none => (searchLits (CURRENCIES_ALIASES.map String.data) amount.data).map String.mk

/-- `re.sub(r"\s+", " ", amount)`: collapse every whitespace run to a single
    ASCII space (`prevSpace` records whether we are inside a run). -/
def collapseSpacesAux (prevSpace : Bool) : List Char → List Char
  | [] => []
  | c :: rest =>
    if isPySpace c then
      if prevSpace then collapseSpacesAux true rest
      else ' ' :: collapseSpacesAux true rest
    else c :: collapseSpacesAux false rest

def collapseSpaces (l : List Char) : List Char := collapseSpacesAux false l

/-- Character class `[\d\s.,]` of the euro-decimal pattern. -/
def euroClass (c : Char) : Bool := c.isDigit ∨ isPySpace c ∨ c = '.' ∨ c = ','

/-- Tail of the euro-decimal pattern after the `€` has been consumed:
    `(\s*?)?\d(?(1)\d|\d*?)(?:$|[^\d])`.  Engine order: the optional group is
    tried first (participating, its inner `\s*?` lazily), which forces the
    two-digit conditional branch; only if every such attempt fails is the
    group skipped, taking the `\d\d*?` branch.  Returns the number of
    characters consumed. -/
def euroTailDigits : List Char → Nat → Option Nat
  | [], e => some (1 + e)
  | c :: rest, e =>
    if c.isDigit then euroTailDigits rest (e + 1)
    else some (1 + e + 1)

def euroTail (ys : List Char) : Option Nat :=
  match firstSome
      (fun c =>
        match (ys.drop c).take 2 with
        | [d₁, d₂] =>
          if d₁.isDigit ∧ d₂.isDigit then
            match ys.drop (c + 2) with
            | [] => some (c + 2)
            | t :: _ => if t.isDigit then none else some (c + 3)
          else none
        | _ => none)
      (prefixLens isPySpace ys) with
  | some n => some n
  | none =>
    match ys with
    | [] => none
    | d :: rest => if d.isDigit then euroTailDigits rest 0 else none

/-- One attempt of the euro-decimal pattern
    `[\d\s.,]*?\d\s*?€(\s*?)?\d(?(1)\d|\d*?)(?:$|[^\d])` anchored at the head
    of `xs`; lazy repetitions try shorter consumptions first.  Returns the
    total match length. -/
def euroMatchAt (xs : List Char) : Option Nat :=
  firstSome
    (fun a =>
      match xs.drop a with
      | [] => none
      | d :: afterD =>
        if d.isDigit then
          firstSome
            (fun b =>
              match afterD.drop b with
              | [] => none
              | e :: tail =>
                if e = '€' then
                  (euroTail tail).map (fun t => a + 1 + b + 1 + t)
                else none)
            (prefixLens isPySpace afterD)
        else none)
    (prefixLens euroClass xs)

/-- `re.search` of the euro-decimal pattern: earliest start position wins. -/
def euroSearch : List Char → Option (List Char)
  | [] => none
  | c :: rest =>
    match euroMatchAt (c :: rest) with
    | some n => some ((c :: rest).take n)
    | none => euroSearch rest

/-- Character class `[\d\s.,']` of the general number pattern. -/
def numClass (c : Char) : Bool := c.isDigit ∨ isPySpace c ∨ c = '.' ∨ c = ',' ∨ c = '\''

/-- One attempt of `([-]?[.]?\d[\d\s.,']*)\s*?(?:[^%\d]|$)` anchored at the
    head of `xs`, returning the length of group 1.  `[-]?` and `[.]?` are
    greedy (presence tried first); the group tail `[\d\s.,']*` is greedy with
    backtracking, the following `\s*?` lazy; the final alternation tries `$`
    before consuming one non-`%` non-digit character. -/
def genCloseOk (pos : List Char) : Bool :=
  (firstSome
    (fun w =>
      match pos.drop w with
      | [] => some ()
      | q :: _ => if q ≠ '%' ∧ ¬ q.isDigit then some () else none)
    (prefixLens isPySpace pos)).isSome

def genMatchCore (zs : List Char) : Option Nat :=
  match zs with
  | [] => none
  | d :: tail =>
    if d.isDigit then
      firstSome
        (fun u => if genCloseOk (tail.drop u) then some (1 + u) else none)
        (prefixLens numClass tail).reverse
    else none

def genMatchAt (xs : List Char) : Option Nat :=
  match xs with
  | '-' :: '.' :: rest =>
    match genMatchCore rest with
    | some n => some (n + 2)
    | none =>
      match genMatchCore ('.' :: rest) with
      | some n => some (n + 1)
      | none => genMatchCore ('-' :: '.' :: rest)
  | '-' :: rest =>
    match genMatchCore rest with
    | some n => some (n + 1)
    | none => genMatchCore ('-' :: rest)
  | '.' :: rest =>
    match genMatchCore rest with
    | some n => some (n + 1)
    | none => genMatchCore ('.' :: rest)
  | other => genMatchCore other

/-- `re.search` of the general number pattern, returning group 1. -/
def genSearch : List Char → Option (List Char)
  | [] => none
  | c :: rest =>
    match genMatchAt (c :: rest) with
    | some n => some ((c :: rest).take n)
    | none => genSearch rest

/-- Post-processing of group 1 in `currencies.extract_number`:
    `price_text = m.group(1).rstrip(",.")`, then keep as-is (whitespace
    stripped) when it contains exactly one `.`, otherwise also
    `lstrip(",.")`. -/
def dropWhileRight (p : Char → Bool) (l : List Char) : List Char :=
  (l.reverse.dropWhile p).reverse

def sepTrim (c : Char) : Bool := c = ',' ∨ c = '.'

def priceText (g : List Char) : List Char :=
  let t := dropWhileRight sepTrim g
  if t.count '.' = 1 then stripEnds isPySpace t
  else stripEnds isPySpace (t.dropWhile sepTrim)

/-- `currencies.extract_number`. -/
def extract_number (amount : String) : Option String :=
  let l := collapseSpaces amount.data
  let euroHit : Option (List Char) :=
    if l.count '€' = 1 then (euroSearch l).map (·.filter (· ≠ ' ')) else none
  match euroHit with
  | some m => some (String.mk m)
  | none =>
    match genSearch l with
    | some g => some (String.mk (priceText g))
    | none =>
      if hasSubstr "free".data (l.map Char.toLower) then some "0" else none

/-- Digit run value. -/
def digitsVal (l : List Char) : Nat :=
  l.foldl (fun acc c => 10 * acc + (c.toNat - '0'.toNat)) 0

/-- An exact decimal `num / 10 ^ scale`: the embedding of the machine floats
    this code produces.  Every float the source manipulates comes from a
    decimal literal and is compared at two decimal places, below the
    granularity at which binary floats deviate from exact decimals. -/
structure Dec where
  num : ℤ
  scale : ℕ
deriving DecidableEq

/-- The rational value of a decimal. -/
def Dec.toRat (d : Dec) : ℚ := (d.num : ℚ) / (10 : ℚ) ^ d.scale

/-- The float `0.0`. -/
def Dec.zero : Dec := ⟨0, 0⟩

/-- Python `float()` on the character data reaching it here (sign, digits,
    at most one dot; no exponent notation can survive the preceding
    filters).  `none` models the `ValueError`. -/
def pyFloat (l₀ : List Char) : Option Dec :=
  let l := stripEnds isPySpace l₀
  let sgn : ℤ := if l.head? = some '-' then -1 else 1
  let body := if l.head? = some '-' ∨ l.head? = some '+' then l.tail else l
  let intPart := body.takeWhile Char.isDigit
  let rest := body.dropWhile Char.isDigit
  match rest with
  | [] => if intPart = [] then none else some ⟨sgn * (digitsVal intPart : ℤ), 0⟩
  | '.' :: frac =>
    if frac.all Char.isDigit ∧ (intPart ≠ [] ∨ frac ≠ []) then
      some ⟨sgn * ((digitsVal intPart : ℤ) * (10 : ℤ) ^ frac.length + (digitsVal frac : ℤ)),
            frac.length⟩
    else none
  | _ => none

/-- Suffix condition of the decimal-separator pattern
    `\d*([.,€])(?:\d{1,2}?|\d{4}\d*?)$`: after the separator, only digits up
    to the end, and not exactly three of them. -/
def decTailOk (tail : List Char) : Bool :=
  tail ≠ [] ∧ tail.all Char.isDigit ∧ tail.length ≠ 3

/-- `re.search` of the decimal-separator pattern returns group 1.  A match
    is `\d*` then a separator whose suffix is all digits of admissible
    length; since everything after a qualifying separator is digits, at most
    one separator position qualifies, so a left-to-right scan is exact. -/
def decimalSepSearch : List Char → Option Char
  | [] => none
  | c :: rest =>
    if (c = '.' ∨ c = ',' ∨ c = '€') ∧ decTailOk rest then some c
    else decimalSepSearch rest

/-- `currencies.parse_number`.  `if not number` covers `None` and the empty
    string. -/
def parse_number (number : Option String) : Option Dec :=
  match number with
  | none => none
  | some s =>
    if s = "" then none
    else
      let l := (stripEnds isPySpace s.data).filter (fun c => c ≠ ' ' ∧ c ≠ '\'')
      match decimalSepSearch l with
      | none => pyFloat (l.filter (fun c => c ≠ '.' ∧ c ≠ ','))
      | some '.' => pyFloat (l.filter (· ≠ ','))
      | some ',' =>
        pyFloat ((l.filter (· ≠ '.')).map (fun c => if c = ',' then '.' else c))
      | some _ =>
        pyFloat ((l.filter (fun c => c ≠ '.' ∧ c ≠ ',')).map
          (fun c => if c = '€' then '.' else c))

/-- Python `round(x, 2)`, ties to even (the binary-float artefacts of
    CPython's `round` are below the granularity used by any claim): round
    `num * 100 / 10 ^ scale` to the nearest integer and attach two decimal
    places. -/
def roundTo2 (d : Dec) : Dec :=
  let a : ℤ := d.num * 100
  let b : ℤ := (10 : ℤ) ^ d.scale
  let f : ℤ := Int.fdiv a b
  let r : ℤ := a - f * b
  ⟨if 2 * r < b then f else if b < 2 * r then f + 1 else if f % 2 = 0 then f else f + 1, 2⟩

/-- `currencies.symbol_from_str`: first table entry whose code, symbol or
    alias set contains the alias. -/
def symbol_from_str (al : Option String) : Option String :=
  match al with
  | none => none
  | some a =>
    if a = "" then none
    else (CURRENCIES.find? (fun ci => a = ci.code ∨ a = ci.symbol ∨ a ∈ ci.aliases)).map (·.code)

/-- `currencies.currency_parser` (embedded as `currencyParser`), the
    top-level amount parser of the newer
    revision.  `round(number_value, 2) if number_value else 0.0` — the Python
    truthiness test makes both `None` and `0.0` fall to `0.0`. -/
def currencyParser (amount : String) : Dec × Option String :=
  let currency := extract_currency amount
  let numberValue := parse_number (extract_number amount)
  (match numberValue with
   | some q => if q.num ≠ 0 then roundTo2 q else Dec.zero
   | none => Dec.zero,
   symbol_from_str currency)

end FinanceTracker

namespace FinanceTracker

/-! ### `src/utils.py` — older-revision `currency_parser` and `src/constants.py` -/

/-- The `CURRENCIES` dictionary of `src/constants.py` (note the source's
    `GPB` entries for the pound). -/
def constantsCURRENCIES : List (String × String) :=
  [("E", "EUR"), ("€", "EUR"), ("U", "USD"), ("$", "USD"),
   ("C", "CHF"), ("G", "GPB"), ("£", "GPB")]

/-- Character class `[A-Za-z€$£]` of `utils.currency_parser`. -/
def oldCurChar (c : Char) : Bool :=
  ('A' ≤ c ∧ c ≤ 'Z') ∨ ('a' ≤ c ∧ c ≤ 'z') ∨ c = '€' ∨ c = '$' ∨ c = '£'

/-- `utils.currency_parser` (the older revision).  `float(...)` may raise
    `ValueError` on malformed input; that exception escaping the function is
    the `none` result. -/
def utilsCurrencyParser (number_str : String) : Option (Dec × String) :=
  let curSymbol : String :=
    match number_str.data.find? oldCurChar with
    | some c => String.mk [c]
    | none => "X"
  let cleaned := number_str.data.filter
    (fun c => c = '-' ∨ c.isDigit ∨ c = ',' ∨ c = '.' ∨ c = '\'')
  let k := cleaned.length - 3
  let joined := (cleaned.take k).filter (fun c => ¬(c = ',' ∨ c = '.' ∨ c = '\''))
    ++ cleaned.drop k
  let final :=
    if ',' ∈ joined.drop (joined.length - 3) then
      joined.map (fun c => if c = ',' then '.' else c)
    else joined
  (pyFloat final).map (fun amount =>
    (roundTo2 amount,
     ((constantsCURRENCIES.find? (·.1 = String.mk [(curSymbol.data.headD 'X').toUpper])).map (·.2)).getD "X"))

/-! ### `src/utils.py` — `check_auth`, `check_spreadsheet`, `remove_job_if_exists`
       and the flush task `add_to_spreadsheet` -/

/-- Python truthiness of an optional string (`None` and `""` are falsy). -/
def truthyStr : Option String → Bool
  | none => false
  | some s => s ≠ ""

/-- The `user_data["auth"]` dictionary, with the keys `check_auth` reads.
    `none` models a missing or empty dictionary. -/
structure AuthData where
  authType : Option String
  authIsDone : Bool
  creds : Option String
  tokenFile : Option String
deriving DecidableEq

/-- `utils.check_auth`.  `token_file.is_file() and token_file.exists()`
    consults the filesystem, supplied as the predicate `isFile`. -/
def check_auth (isFile : String → Bool) : Option AuthData → Bool
  | none => false
  | some a =>
    if ¬ truthyStr a.authType then false
    else if a.authIsDone then
      if a.creds.isSome then true
      else
        match a.tokenFile with
        | some f => isFile f
        | none => false
    else false

/-- The `user_data["spreadsheet"]` dictionary. -/
structure SpreadsheetData where
  id : Option String
  sheetName : Option String
  isSet : Bool
deriving DecidableEq

/-- `utils.check_spreadsheet`: returns the verdict and the dictionary with
    its mutated `is_set` flag. -/
def check_spreadsheet : Option SpreadsheetData → Bool × Option SpreadsheetData
  | none => (false, none)
  | some sd =>
    let ok := truthyStr sd.id ∧ truthyStr sd.sheetName
    (ok, some { sd with isSet := ok })

/-- Rows already rendered from records (`list(record.values())`). -/
def RecordRow := List String
deriving instance DecidableEq for RecordRow

/-- The slice of `user_data` that `add_to_spreadsheet` touches. -/
structure UserData where
  records : List RecordRow
  auth : Option AuthData
  spreadsheet : Option SpreadsheetData
deriving DecidableEq

/-- Outcome of the `utils.oauth` call, an external collaborator: the two
    `except` clauses of `add_to_spreadsheet` distinguish `RefreshError` from
    any other exception. -/
inductive OAuthOutcome
  | ok
  | refreshError
  | otherError
deriving DecidableEq

/-- Outcome of `spreadsheet.append_records`, the external ledger-store
    write. -/
inductive WriteOutcome
  | ok
  | spreadsheetError
deriving DecidableEq

/-- The message `add_to_spreadsheet` sends to the user, one constructor per
    `send_message` site. -/
inductive FlushReply
  | noRecords (recurring : Bool)
  | authIncomplete
  | spreadsheetNotSet
  | refreshFailed
  | genericError
  | writeFailed
  | success (recurring : Bool) (count : Nat)
deriving DecidableEq

/-- `msg_header` of `add_to_spreadsheet`. -/
def msgHeader (recurring : Bool) : String :=
  if recurring then "📆🔁 *Running scheduled task*" else "📆 *Running scheduled task*"

/-- The exact user-visible texts of `add_to_spreadsheet`. -/
def FlushReply.text : FlushReply → String
  | .noRecords recurring => msgHeader recurring ++ "\nThere are no records to append\\."
  | .authIncomplete =>
    "⚠️ I could not add your data to the spreadsheet: *authorization is incomplete*\\. Enter the `/settings` to log in\\."
  | .spreadsheetNotSet =>
    "⚠️ I could not add your data to the spreadsheet: ID or sheet name *are not set*\\. Enter the `/settings` to set them\\."
  | .refreshFailed =>
    "⚠️ Error while refreshing your credentials\\. You should logout and login again\\. Go to `/settings`, then *Login*, and then click *Logout*\\."
  | .genericError =>
    "⚠️ An error occurred\\. Please, contact the developer to find a solution\\. Sorry 😞"
  | .writeFailed =>
    "⚠️ An error occurred while adding records to the spreadsheet\\."
  | .success recurring count =>
    msgHeader recurring ++ "\n*" ++ toString count ++ "* record"
      ++ (if count = 1 then " has" else "s have")
      ++ " been successfully added to the spreadsheet\\."

/-- Result of one run of the flush task: the user data afterwards, the
    message sent, and whether an exception is re-raised out of the task
    (the `raise` after the `SpreadsheetError` message). -/
structure FlushResult where
  userData : UserData
  reply : FlushReply
  raised : Bool
deriving DecidableEq

/-- `utils.add_to_spreadsheet`, the flush task run by the job queue.
    External effects are parameters: `isFile` (filesystem lookups of
    `check_auth`), `oauthOutcome` (the `utils.oauth` call) and
    `writeOutcome` (the ledger-store write). -/
def add_to_spreadsheet (isFile : String → Bool) (oauthOutcome : OAuthOutcome)
    (writeOutcome : WriteOutcome) (recurring : Bool) (ud : UserData) : FlushResult :=
  if ud.records = [] then ⟨ud, .noRecords recurring, false⟩
  else if ¬ check_auth isFile ud.auth then ⟨ud, .authIncomplete, false⟩
  else
    let ss := check_spreadsheet ud.spreadsheet
    let ud₁ : UserData := { ud with spreadsheet := ss.2 }
    if ¬ ss.1 then ⟨ud₁, .spreadsheetNotSet, false⟩
    else
      match oauthOutcome with
      | .refreshError => ⟨ud₁, .refreshFailed, false⟩
      | .otherError => ⟨ud₁, .genericError, false⟩
      | .ok =>
        match writeOutcome with
        | .spreadsheetError => ⟨ud₁, .writeFailed, true⟩
        | .ok => ⟨{ ud₁ with records := [] }, .success recurring ud.records.length, false⟩

/-- `utils.remove_job_if_exists`, acting on the job queue modelled as a
    list of named jobs: removes every job with the given name and reports
    whether any existed. -/
def remove_job_if_exists {J : Type} (jobName : J → String) (name : String)
    (q : List J) : List J × Bool :=
  (q.filter (fun j => jobName j ≠ name), q.any (fun j => jobName j = name))

end FinanceTracker

namespace FinanceTracker

/-! ### `src/bot/models.py` — the `Record` data model and its validator -/

/-- `models.Record`: one financial transaction.  A `dt.date` value is never
    falsy, so the date is an opaque calendar date behind `Option`;
    `recorded_at` is an opaque timestamp. -/
structure Record where
  date : Option String
  amount : Option Dec
  currency : Option String
  description : Option String
  account : Option String
  recordedAt : Option Nat
deriving DecidableEq

/-- The all-`None` record (`Record()` and the cleared draft dict). -/
def Record.empty : Record := ⟨none, none, none, none, none, none⟩

/-- Python truthiness of the amount: `not self.amount` is true for `None`
    and for `0.0` (a decimal is zero iff its mantissa is). -/
def amountTruthy : Option Dec → Bool
  | none => false
  | some q => q.num ≠ 0

/-- `models.Record.validate`, the missing-field set it builds.  The source
    accumulates into a Python `set` whose iteration order is unspecified;
    the list below fixes the source's insertion order, and every theorem
    treats it as a set. -/
def Record.missingFields (r : Record) : List String :=
  (if r.date.isNone then ["date"] else [])
    ++ (if ¬ amountTruthy r.amount then ["amount"] else [])
    ++ (if ¬ truthyStr r.account then ["account"] else [])

/-- `models.Record.validate`: raises `ValueError` naming the missing
    required fields, modelled as `Except`. -/
def Record.validate (r : Record) : Except (List String) Unit :=
  if r.missingFields = [] then .ok () else .error r.missingFields

/-! ### `src/bot/record.py` — `RecordHandler.save` and `RecordHandler.cancel` -/

/-- The two states of the record conversation of `src/bot/record.py`,
    plus the terminal `END`. -/
inductive BotRecordState
  | INPUT
  | REPLY
  | ENDED
deriving DecidableEq

/-- Reply sent by `RecordHandler.save`. -/
inductive SaveReply
  | invalid (missing : List String)
  | saved
deriving DecidableEq

/-- Result of `RecordHandler.save`: the draft (`user_data["record"]`) and
    pending list (`user_data["records"]`) afterwards, the reply, and the
    state returned to the conversation handler. -/
structure SaveResult where
  draft : Record
  records : List Record
  reply : SaveReply
  state : BotRecordState
deriving DecidableEq

/-- `RecordHandler.save`.  The record is re-validated from the draft dict,
    `recorded_at` is stamped with the current time, and
    `record.check_required_fields()` — the record validator, shipped in the
    tree as `models.Record.validate` — either raises (error reply, nothing
    mutated) or passes (record appended to `records`, draft dict cleared).
    Both paths return the `INPUT` state. -/
def RecordHandler.save (now : Nat) (draft : Record) (records : List Record) : SaveResult :=
  let record : Record := { draft with recordedAt := some now }
  match record.validate with
  | .error missing => ⟨draft, records, .invalid missing, .INPUT⟩
  | .ok _ => ⟨Record.empty, records ++ [record], .saved, .INPUT⟩

/-- `RecordHandler.cancel`: clears the draft dict (when non-empty) and
    returns `END`, terminating the whole conversation; the pending list is
    not touched. -/
def RecordHandler.cancel (draft : Record) (records : List Record) :
    Record × List Record × BotRecordState :=
  (if draft ≠ Record.empty then Record.empty else draft, records, .ENDED)

/-! ### `src/record.py` — the older-revision record conversation -/

/-- States of the two nested record conversation handlers
    (`SELECTING_ACTION, INPUT, REPLY, STOPPING` plus the library's `END`). -/
inductive ConvState
  | selectingAction
  | input
  | reply
  | stopping
  | ended
deriving DecidableEq

/-- The `CallbackQuery` data constants of `src/record.py`. -/
inductive RecordButton
  | NEW | SHOW | CLEAR | DATE | REASON | AMOUNT | ACCOUNT | SAVE | CANCEL | BACK | STOP
deriving DecidableEq

/-- An inbound update for the record conversation: a button press, free
    text, or a command. -/
inductive RecordInput
  | button (b : RecordButton)
  | text (t : String)
  | command (c : String)
deriving DecidableEq

/-- The handler functions of `src/record.py` reachable from the
    second-level (`new_record_handler`) conversation. -/
inductive RecordHandlerFn
  | prompt
  | save
  | backToStart
  | store
  | cancel
deriving DecidableEq

/-- Dispatch table of `new_record_handler`: per-state handlers first
    (`states=`), then the `fallbacks` (`/cancel` command and the `CANCEL`
    button both reach `cancel`). -/
def newRecordDispatch (st : ConvState) (inp : RecordInput) : Option RecordHandlerFn :=
  let stateHandler : Option RecordHandlerFn :=
    match st, inp with
    | .input, .button b =>
      if b = .DATE ∨ b = .REASON ∨ b = .AMOUNT ∨ b = .ACCOUNT then some .prompt
      else if b = .SAVE then some .save
      else if b = .BACK then some .backToStart
      else none
    | .reply, .text _ => some .store
    | _, _ => none
  match stateHandler with
  | some h => some h
  | none =>
    match inp with
    | .command c => if c = "cancel" then some .cancel else none
    | .button b => if b = .CANCEL then some .cancel else none
    | _ => none

/-- `map_to_parent` of `new_record_handler`: the child's `END` returns to
    the parent's `SELECTING_ACTION`; the child's `STOPPING` becomes the
    parent's `END`, terminating the whole conversation tree. -/
def newRecordMapToParent : ConvState → Option ConvState
  | .ended => some .selectingAction
  | .stopping => some .ended
  | _ => none

/-- A draft record dict of the older revision (key/value pairs; `clear()`
    empties it). -/
def DraftDict := List (String × String)
deriving instance DecidableEq for DraftDict

/-- The session slice the older record conversation mutates. -/
structure OldSession where
  draft : DraftDict
  pending : List DraftDict
deriving DecidableEq

/-- `record.cancel`: clears the draft (`record.clear()`, guarded by
    `if record:`) and returns `STOPPING`. -/
def record_cancel (s : OldSession) : OldSession × ConvState :=
  (if s.draft ≠ [] then { s with draft := [] } else s, .stopping)

/-- Reply sent by `record.clear_data`. -/
inductive ClearReply
  | cleared (n : Nat)
  | noData
deriving DecidableEq

/-- `record.clear_data`: with a non-empty pending list it reports the count
    and clears everything (`records.clear()`); otherwise it reports that
    there is nothing to clear.  Both paths return `SELECTING_ACTION`.  The
    function takes no selector of any kind. -/
def clear_data (records : List DraftDict) : List DraftDict × ClearReply × ConvState :=
  if records ≠ [] then ([], .cleared records.length, .selectingAction)
  else (records, .noData, .selectingAction)

end FinanceTracker

namespace FinanceTracker

/-! ### `src/settings.py` — the schedule-setting conversation -/

/-- A wall-clock time of day as accepted by `datetime.time`. -/
structure TimeOfDay where
  hour : Nat
  minute : Nat
deriving DecidableEq

/-- `datetime.time(hour, minute)`: raises `ValueError` outside the valid
    ranges. -/
def dtm_time (hour minute : Nat) : Option TimeOfDay :=
  if hour < 24 ∧ minute < 60 then some ⟨hour, minute⟩ else none

/-- What a registered job will do: the five schedule shapes produced by
    `set_custom_schedule` (`run_once` at a datetime / time-of-day / delay,
    `run_daily` over all days or one weekday, `run_monthly`) and the default
    daily schedule of `set_default_schedule`. -/
inductive JobSpec
  | onceNow
  | onceAt (t : TimeOfDay)
  | onceInSeconds (n : Nat)
  | dailyAt (t : TimeOfDay)
  | weeklyOn (day : Nat) (t : TimeOfDay)
  | monthlyOn (day : Nat) (t : TimeOfDay)
deriving DecidableEq

/-- A job in the `telegram.ext.JobQueue`, identified by its name. -/
structure Job where
  name : String
  spec : JobSpec
deriving DecidableEq

/-- The per-user job name `f"append_data_{user_id}"`. -/
def append_data_name (userId : Nat) : String := "append_data_" ++ toString userId

/-- Case-insensitive literal prefix (`re.IGNORECASE` on an alternation of
    letters): consume `pat` and return the rest. -/
def ciPref (pat : List Char) (l : List Char) : Option (List Char) :=
  match pat, l with
  | [], rest => some rest
  | _ :: _, [] => none
  | p :: ps, c :: cs => if c.toLower = p.toLower then ciPref ps cs else none

/-- Two decimal digits at the head (`\d{2}`). -/
def twoDigits : List Char → Option (Nat × List Char)
  | a :: b :: rest =>
    if a.isDigit ∧ b.isDigit then
      some ((a.toNat - '0'.toNat) * 10 + (b.toNat - '0'.toNat), rest)
    else none
  | _ => none

/-- `\d{2}:\d{2}` at the head. -/
def hhmm (l : List Char) : Option (Nat × Nat × List Char) :=
  match twoDigits l with
  | none => none
  | some (h, rest) =>
    match rest with
    | ':' :: rest₂ =>
      (twoDigits rest₂).map (fun p => (h, p.1, p.2))
    | _ => none

/-- Parse result of the `once` pattern
    `(now|(?P<hour>\d{2}):(?P<minute>\d{2})|(?P<seconds>\d{1,2}))`
    (alternatives tried in order, `re.match` anchored at the start,
    `re.IGNORECASE`). -/
inductive OnceSpec
  | now
  | at (hour minute : Nat)
  | secs (n : Nat)
deriving DecidableEq

def oncePatternMatch (l : List Char) : Option OnceSpec :=
  match ciPref "now".data l with
  | some _ => some .now
  | none =>
    match hhmm l with
    | some (h, m, _) => some (.at h m)
    | none =>
      match l with
      | a :: rest =>
        if a.isDigit then
          match rest with
          | b :: _ =>
            if b.isDigit then
              some (.secs ((a.toNat - '0'.toNat) * 10 + (b.toNat - '0'.toNat)))
            else some (.secs (a.toNat - '0'.toNat))
          | [] => some (.secs (a.toNat - '0'.toNat))
        else none
      | [] => none

/-- The `daily` pattern
    `(d|daily)\s*(?P<dow>[1-7])?\s*(?P<hour>\d{2}):(?P<minute>\d{2})`:
    the engine tries the alternative `d` before `daily`, and within each it
    tries taking the optional day-of-week digit before skipping it.
    Returns `(dow?, hour, minute)`. -/
def dailyAfter (rest : List Char) : Option (Option Nat × Nat × Nat) :=
  let rest₁ := rest.dropWhile isPySpace
  let withDow : Option (Option Nat × Nat × Nat) :=
    match rest₁ with
    | c :: rest₂ =>
      if '1' ≤ c ∧ c ≤ '7' then
        ((hhmm (rest₂.dropWhile isPySpace)).map
          (fun p => (some (c.toNat - '0'.toNat), p.1, p.2.1)))
      else none
    | [] => none
  match withDow with
  | some r => some r
  | none => (hhmm rest₁).map (fun p => (none, p.1, p.2.1))

def dailyPatternMatch (l : List Char) : Option (Option Nat × Nat × Nat) :=
  match ciPref "d".data l with
  | some rest =>
    match dailyAfter rest with
    | some r => some r
    | none =>
      match ciPref "daily".data l with
      | some rest' => dailyAfter rest'
      | none => none
  | none => none

/-- The `monthly` pattern
    `(m|monthly) (?P<day>\d{2}) (?P<hour>\d{2}):(?P<minute>\d{2})`
    (single literal spaces).  Returns `(day, hour, minute)`. -/
def monthlyAfter (rest : List Char) : Option (Nat × Nat × Nat) :=
  match rest with
  | ' ' :: rest₁ =>
    match twoDigits rest₁ with
    | some (day, ' ' :: rest₂) =>
      (hhmm rest₂).map (fun p => (day, p.1, p.2.1))
    | _ => none
  | _ => none

def monthlyPatternMatch (l : List Char) : Option (Nat × Nat × Nat) :=
  match ciPref "m".data l with
  | some rest =>
    match monthlyAfter rest with
    | some r => some r
    | none =>
      match ciPref "monthly".data l with
      | some rest' => monthlyAfter rest'
      | none => none
  | none => none

/-- States `set_custom_schedule` can return. -/
inductive ScheduleState
  | stopping
  | input
deriving DecidableEq

/-- Reply of `set_custom_schedule`: the success message describing the new
    schedule, or the syntax-error re-prompt listing the valid forms. -/
inductive ScheduleReply
  | scheduled (spec : JobSpec)
  | syntaxError
deriving DecidableEq

/-- The schedule shape `set_custom_schedule` derives from the user's text:
    the `once` pattern is tried first (`now` / `HH:MM` through `dtm.time` /
    `SS` seconds), then the `daily` pattern (weekly when the day-of-week
    group matched, `run_daily(days=(dow-1,))`), then the `monthly` pattern.
    `none` is `schedule_is_valid = False`; `some none` is a `ValueError`
    escaping `dtm.time(...)` (out-of-range `HH:MM`); `some (some spec)` is
    the registered job's shape.  `run_monthly`'s own treatment of impossible
    days of month lives in the collaborator and is not modelled. -/
def parsedSchedule (l : List Char) : Option (Option JobSpec) :=
  match oncePatternMatch l with
  | some .now => some (some .onceNow)
  | some (.at h m) =>
    (match dtm_time h m with
     | some t => some (some (.onceAt t))
     | none => some none)
  | some (.secs n) => some (some (.onceInSeconds n))
  | none =>
    match dailyPatternMatch l with
    | some (dow, h, m) =>
      (match dtm_time h m with
       | none => some none
       | some t =>
         match dow with
         | some d => some (some (.weeklyOn (d - 1) t))
         | none => some (some (.dailyAt t)))
    | none =>
      match monthlyPatternMatch l with
      | some (day, h, m) =>
        (match dtm_time h m with
         | none => some none
         | some t => some (some (.monthlyOn day t)))
      | none => none

/-- `settings.set_custom_schedule`.  The job queue is threaded explicitly.
    The previous job for the user's key is removed *before* the input is
    parsed, exactly as in the source (`utils.remove_job_if_exists` is called
    unconditionally ahead of the pattern matches).  On a valid specification
    the job is registered and the success message (`STOPPING`) returned; on
    `schedule_is_valid = False` the syntax-error re-prompt is sent and the
    conversation stays in `INPUT`; a `ValueError` out of `dtm.time` crashes
    the handler (`none`), the removal having already happened. -/
def set_custom_schedule (whenText : String) (userId : Nat) (q : List Job) :
    List Job × Option (ScheduleReply × ScheduleState) :=
  let jobName := append_data_name userId
  let q₁ := (remove_job_if_exists Job.name jobName q).1
  match parsedSchedule whenText.data with
  | none => (q₁, some (.syntaxError, .input))
  | some none => (q₁, none)
  | some (some spec) =>
    (q₁ ++ [⟨jobName, spec⟩], some (.scheduled spec, .stopping))

/-- `settings.set_default_schedule`: removes the previous job and registers
    a daily one at 23:59 (the random second is below the model's
    granularity); returns `STOPPING`. -/
def set_default_schedule (userId : Nat) (q : List Job) : List Job × ScheduleState :=
  let jobName := append_data_name userId
  ((remove_job_if_exists Job.name jobName q).1 ++ [⟨jobName, .dailyAt ⟨23, 59⟩⟩], .stopping)

end FinanceTracker

namespace FinanceTracker

/-! ### Concrete sample values used by witnesses and counterexamples -/

/-- A filesystem on which no token file exists. -/
def noFile : String → Bool := fun _ => false

/-- A completed user-account login (credentials stored in `user_data`). -/
def sampleAuth : AuthData := ⟨some "user_account", true, some "tok", none⟩

/-- A configured spreadsheet. -/
def sampleSS : SpreadsheetData := ⟨some "sheet-id", some "Sheet1", false⟩

/-- Two pending record rows with full configuration. -/
def sampleUD : UserData := ⟨[["r1"], ["r2"]], some sampleAuth, some sampleSS⟩

/-- Pending rows but no login data at all. -/
def sampleUDNoAuth : UserData := ⟨[["r1"]], none, some sampleSS⟩

/-- Pending rows, valid login, no spreadsheet configured. -/
def sampleUDNoSS : UserData := ⟨[["r1"]], some sampleAuth, none⟩

/-- A draft with an amount and a non-empty description but no date and no
    account. -/
def draftAmountDescr : Record := ⟨none, some ⟨50, 0⟩, some "EUR", some "groceries", none, none⟩

/-- A fully populated draft. -/
def draftFull : Record :=
  ⟨some "01/01/2024", some ⟨-50, 0⟩, some "USD", some "groceries", some "BPM", none⟩

/-- A draft whose amount is exactly zero (e.g. parsed from "free"). -/
def draftZeroAmount : Record := ⟨some "01/01/2024", some ⟨0, 0⟩, none, some "gift", some "BPM", none⟩

/-- Five pending records of the older revision. -/
def pending5 : List DraftDict :=
  [[("reason", "r1")], [("reason", "r2")], [("reason", "r3")],
   [("reason", "r4")], [("reason", "r5")]]

/-- A job queue holding a previously installed daily flush job for user 7. -/
def qDaily7 : List Job := [⟨"append_data_7", .dailyAt ⟨23, 59⟩⟩]

end FinanceTracker

namespace FinanceTracker

/-! ### Helper lemmas -/

theorem filter_name_remove (q : List Job) (n : String) :
    ((remove_job_if_exists Job.name n q).1).filter (fun j => j.name = n) = [] := by
  simp [remove_job_if_exists, List.filter_filter]

theorem filter_other_remove (q : List Job) (n : String) :
    ((remove_job_if_exists Job.name n q).1).filter (fun j => j.name ≠ n)
      = q.filter (fun j => j.name ≠ n) := by
  simp [remove_job_if_exists, List.filter_filter]

/-! ### Claims -/

/-- C7: after `set_custom_schedule` succeeds (any of the five shapes:
    immediate, one-shot at a time or delay, daily, weekly, monthly), the
    jobs registered under the session's key are exactly the single new job
    carrying the confirmed schedule shape — the previously registered job
    was cancelled before registration, so an old Daily job is no longer in
    the queue once a Weekly one is set — jobs of other sessions are
    untouched, and the conversation moves to `STOPPING`. -/
theorem claim_C7_schedule_replacement (text : String) (userId : Nat) (q : List Job)
    (sp : JobSpec) (st : ScheduleState)
    (h : (set_custom_schedule text userId q).2 = some (.scheduled sp, st)) :
    st = .stopping ∧
    (set_custom_schedule text userId q).1.filter
      (fun j => j.name = append_data_name userId) = [⟨append_data_name userId, sp⟩] ∧
    (set_custom_schedule text userId q).1.filter
      (fun j => j.name ≠ append_data_name userId)
      = q.filter (fun j => j.name ≠ append_data_name userId) := by
  unfold set_custom_schedule at h ⊢
  cases hp : parsedSchedule text.data with
  | none => rw [hp] at h; simp at h
  | some o =>
    cases o with
    | none => rw [hp] at h; simp at h
    | some spec =>
      rw [hp] at h
      dsimp only at h ⊢
      simp only [Option.some.injEq, Prod.mk.injEq, ScheduleReply.scheduled.injEq] at h
      obtain ⟨hsp, hst⟩ := h
      refine ⟨hst.symm, ?_, ?_⟩
      · rw [List.filter_append, filter_name_remove, hsp]
        simp
      · rw [List.filter_append, filter_other_remove]
        simp

/-- C7 witness: with user 1's Daily job installed, setting the Weekly
    schedule `d 3 12:30` leaves exactly the new Weekly job under the key —
    the Daily job is gone. -/
theorem claim_C7_schedule_replacement_witness :
    (set_custom_schedule "d 3 12:30" 1 [⟨"append_data_1", .dailyAt ⟨23, 59⟩⟩]).1.filter
        (fun j => j.name = append_data_name 1)
      = [⟨append_data_name 1, .weeklyOn 2 ⟨12, 30⟩⟩] :=
  (claim_C7_schedule_replacement "d 3 12:30" 1 [⟨"append_data_1", .dailyAt ⟨23, 59⟩⟩]
    (.weeklyOn 2 ⟨12, 30⟩) .stopping (by decide)).2.1

/-- C6 counterexample: with user 7's daily job installed, the unparseable
    specification "whenever" is re-prompted in the same `INPUT` state — but
    the job queue comes back empty: the previously active schedule job did
    not remain installed. -/
theorem claim_C6_counterexample :
    set_custom_schedule "whenever" 7 qDaily7 = ([], some (.syntaxError, .input))
      ∧ qDaily7 ≠ [] := by
  constructor
  · decide
  · decide

/-- C6 (amended): on an unparseable custom-schedule specification the
    conversation does re-prompt with the syntax-error message and stays in
    the `INPUT` state, but the schedule state is *not* left unmodified: the
    session's previously active job has already been removed (the removal
    runs before validation). -/
theorem claim_C6_invalid_schedule_input (text : String) (userId : Nat) (q : List Job)
    (h : parsedSchedule text.data = none) :
    set_custom_schedule text userId q
      = ((remove_job_if_exists Job.name (append_data_name userId) q).1,
         some (.syntaxError, .input)) := by
  unfold set_custom_schedule
  rw [h]

/-- C6 witness: the amended statement at the concrete run of the
    counterexample — after re-prompting, user 7's job list under the key is
    empty. -/
theorem claim_C6_invalid_schedule_input_witness :
    set_custom_schedule "whenever" 7 qDaily7
      = ((remove_job_if_exists Job.name (append_data_name 7) qDaily7).1,
         some (.syntaxError, .input)) :=
  claim_C6_invalid_schedule_input "whenever" 7 qDaily7 (by decide)

end FinanceTracker

namespace FinanceTracker

/-- C1: once a flush execution reaches the batch write (pending records
    exist, authorization and spreadsheet checks passed, credentials
    obtained), a failing write leaves the pending list exactly as it was,
    sends the failure message and re-raises the error (it is not silently
    swallowed), while a successful write clears the pending list entirely
    and reports the count of flushed records. -/
theorem claim_C1_flush_write_outcome (isFile : String → Bool)
    (writeOutcome : WriteOutcome) (recurring : Bool) (ud : UserData)
    (hne : ud.records ≠ [])
    (hauth : check_auth isFile ud.auth = true)
    (hss : (check_spreadsheet ud.spreadsheet).1 = true) :
    (writeOutcome = .spreadsheetError →
      (add_to_spreadsheet isFile .ok writeOutcome recurring ud).userData.records = ud.records ∧
      (add_to_spreadsheet isFile .ok writeOutcome recurring ud).reply = .writeFailed ∧
      (add_to_spreadsheet isFile .ok writeOutcome recurring ud).raised = true) ∧
    (writeOutcome = .ok →
      (add_to_spreadsheet isFile .ok writeOutcome recurring ud).userData.records = [] ∧
      (add_to_spreadsheet isFile .ok writeOutcome recurring ud).reply
        = .success recurring ud.records.length ∧
      (add_to_spreadsheet isFile .ok writeOutcome recurring ud).raised = false) := by
  unfold add_to_spreadsheet
  constructor
  · intro hw; subst hw
    simp [hne, hauth, hss]
  · intro hw; subst hw
    simp [hne, hauth, hss]

/-- C1 witness: a session with two pending rows, logged in and configured —
    the failing write preserves both rows and raises; the succeeding write
    leaves none and reports a count of 2. -/
theorem claim_C1_flush_write_outcome_witness :
    (add_to_spreadsheet noFile .ok .spreadsheetError true sampleUD).userData.records
        = sampleUD.records ∧
    (add_to_spreadsheet noFile .ok .spreadsheetError true sampleUD).raised = true ∧
    (add_to_spreadsheet noFile .ok .ok true sampleUD).userData.records = [] ∧
    (add_to_spreadsheet noFile .ok .ok true sampleUD).reply = .success true 2 := by
  have hf := claim_C1_flush_write_outcome noFile .spreadsheetError true sampleUD
    (by decide) (by decide) (by decide)
  have hs := claim_C1_flush_write_outcome noFile .ok true sampleUD
    (by decide) (by decide) (by decide)
  refine ⟨(hf.1 rfl).1, (hf.1 rfl).2.2, (hs.2 rfl).1, ?_⟩
  have h := (hs.2 rfl).2.1
  simpa using h

/-- C2: every precondition failure of the flush leaves the pending list
    untouched and produces its own distinct user-visible report — the empty
    pending list yields the informational no-records message (not an error,
    no warning marker), missing authorization and an unset spreadsheet each
    yield a specific error naming the `/settings` remedy, and a
    credential-refresh failure yields the distinct logout-and-login-again
    error. -/
theorem claim_C2_flush_preconditions (isFile : String → Bool)
    (oauthOutcome : OAuthOutcome) (writeOutcome : WriteOutcome)
    (recurring : Bool) (ud : UserData) :
    (ud.records = [] →
      add_to_spreadsheet isFile oauthOutcome writeOutcome recurring ud
        = ⟨ud, .noRecords recurring, false⟩) ∧
    (ud.records ≠ [] → check_auth isFile ud.auth = false →
      add_to_spreadsheet isFile oauthOutcome writeOutcome recurring ud
        = ⟨ud, .authIncomplete, false⟩) ∧
    (ud.records ≠ [] → check_auth isFile ud.auth = true →
        (check_spreadsheet ud.spreadsheet).1 = false →
      (add_to_spreadsheet isFile oauthOutcome writeOutcome recurring ud).userData.records
          = ud.records ∧
      (add_to_spreadsheet isFile oauthOutcome writeOutcome recurring ud).reply
          = .spreadsheetNotSet ∧
      (add_to_spreadsheet isFile oauthOutcome writeOutcome recurring ud).raised = false) ∧
    (ud.records ≠ [] → check_auth isFile ud.auth = true →
        (check_spreadsheet ud.spreadsheet).1 = true → oauthOutcome = .refreshError →
      (add_to_spreadsheet isFile oauthOutcome writeOutcome recurring ud).userData.records
          = ud.records ∧
      (add_to_spreadsheet isFile oauthOutcome writeOutcome recurring ud).reply
          = .refreshFailed ∧
      (add_to_spreadsheet isFile oauthOutcome writeOutcome recurring ud).raised = false) ∧
    ([(FlushReply.noRecords recurring).text, FlushReply.authIncomplete.text,
      FlushReply.spreadsheetNotSet.text, FlushReply.refreshFailed.text].Pairwise (· ≠ ·)) ∧
    ("⚠️".data.isPrefixOf (FlushReply.noRecords recurring).text.data = false ∧
     "⚠️".data.isPrefixOf FlushReply.authIncomplete.text.data = true ∧
     "⚠️".data.isPrefixOf FlushReply.spreadsheetNotSet.text.data = true ∧
     "⚠️".data.isPrefixOf FlushReply.refreshFailed.text.data = true) ∧
    (hasSubstr "`/settings` to log in".data FlushReply.authIncomplete.text.data = true ∧
     hasSubstr "`/settings` to set them".data FlushReply.spreadsheetNotSet.text.data = true ∧
     hasSubstr "logout and login again".data FlushReply.refreshFailed.text.data = true) := by
  refine ⟨?_, ?_, ?_, ?_, ?_, ?_, ?_⟩
  · intro he
    unfold add_to_spreadsheet
    simp [he]
  · intro hne hauth
    unfold add_to_spreadsheet
    simp [hne, hauth]
  · intro hne hauth hss
    unfold add_to_spreadsheet
    simp [hne, hauth, hss]
  · intro hne hauth hss hoa; subst hoa
    unfold add_to_spreadsheet
    simp [hne, hauth, hss]
  · cases recurring <;> decide
  · cases recurring <;> exact ⟨by decide, by decide, by decide, by decide⟩
  · exact ⟨by decide, by decide, by decide⟩

/-- C2 witness: the four precondition failures at concrete sessions — empty
    pending list, missing login, missing spreadsheet, refresh failure — each
    with its report and the pending list untouched. -/
theorem claim_C2_flush_preconditions_witness :
    add_to_spreadsheet noFile .ok .ok true ⟨[], some sampleAuth, some sampleSS⟩
      = ⟨⟨[], some sampleAuth, some sampleSS⟩, .noRecords true, false⟩ ∧
    add_to_spreadsheet noFile .ok .ok true sampleUDNoAuth
      = ⟨sampleUDNoAuth, .authIncomplete, false⟩ ∧
    (add_to_spreadsheet noFile .ok .ok true sampleUDNoSS).reply = .spreadsheetNotSet ∧
    (add_to_spreadsheet noFile .refreshError .ok true sampleUD).reply = .refreshFailed ∧
    (add_to_spreadsheet noFile .refreshError .ok true sampleUD).userData.records
      = sampleUD.records := by
  refine ⟨(claim_C2_flush_preconditions noFile .ok .ok true _).1 rfl,
    (claim_C2_flush_preconditions noFile .ok .ok true sampleUDNoAuth).2.1
      (by decide) (by decide),
    ((claim_C2_flush_preconditions noFile .ok .ok true sampleUDNoSS).2.2.1
      (by decide) (by decide) (by decide)).2.1,
    ((claim_C2_flush_preconditions noFile .refreshError .ok true sampleUD).2.2.2.1
      (by decide) (by decide) (by decide) rfl).2.1,
    ((claim_C2_flush_preconditions noFile .refreshError .ok true sampleUD).2.2.2.1
      (by decide) (by decide) (by decide) rfl).1⟩

end FinanceTracker

namespace FinanceTracker

/-- C3 counterexample: a draft carrying an amount and a non-empty
    description — by the claim, save should succeed — is rejected by the
    validator, which names `date` and `account` as the missing mandatory
    fields; nothing is appended. -/
theorem claim_C3_counterexample :
    amountTruthy draftAmountDescr.amount = true ∧
    truthyStr draftAmountDescr.description = true ∧
    (RecordHandler.save 0 draftAmountDescr []).reply = .invalid ["date", "account"] ∧
    (RecordHandler.save 0 draftAmountDescr []).records = [] := by
  decide

/-- C3 (amended): finalizing a draft succeeds iff `date`, a non-zero
    `amount` and a non-empty `account` are all present — the description is
    not required, the date does not default and the account is mandatory.
    On success the record (stamped with `recorded_at`) is appended and the
    draft cleared; on failure the report names exactly the missing fields
    among these three, the draft and the pending list are unchanged, and
    the conversation stays in the same `INPUT` state either way. -/
theorem claim_C3_save_required_fields (now : Nat) (draft : Record) (records : List Record) :
    (RecordHandler.save now draft records).state = .INPUT ∧
    (draft.date.isSome = true → amountTruthy draft.amount = true →
        truthyStr draft.account = true →
      (RecordHandler.save now draft records).records
          = records ++ [{ draft with recordedAt := some now }] ∧
      (RecordHandler.save now draft records).draft = Record.empty ∧
      (RecordHandler.save now draft records).reply = .saved) ∧
    (¬(draft.date.isSome = true ∧ amountTruthy draft.amount = true ∧
        truthyStr draft.account = true) →
      (RecordHandler.save now draft records).records = records ∧
      (RecordHandler.save now draft records).draft = draft ∧
      (RecordHandler.save now draft records).reply
          = .invalid ({ draft with recordedAt := some now } : Record).missingFields ∧
      ({ draft with recordedAt := some now } : Record).missingFields ≠ [] ∧
      (∀ f, f ∈ ({ draft with recordedAt := some now } : Record).missingFields ↔
        ((f = "date" ∧ draft.date = none) ∨
         (f = "amount" ∧ amountTruthy draft.amount = false) ∨
         (f = "account" ∧ truthyStr draft.account = false)))) := by
  have hmf : ({ draft with recordedAt := some now } : Record).missingFields
      = draft.missingFields := by
    simp [Record.missingFields]
  refine ⟨?_, ?_, ?_⟩
  · unfold RecordHandler.save
    cases h : ({ draft with recordedAt := some now } : Record).validate <;> simp [h]
  · intro hd ha hacc
    have hmfe : draft.missingFields = [] := by
      simp [Record.missingFields, Option.isNone_iff_eq_none]
      refine ⟨?_, ?_, ?_⟩
      · intro hc; rw [hc] at hd; simp at hd
      · simp [ha]
      · simp [hacc]
    unfold RecordHandler.save
    simp [Record.validate, hmf, hmfe]
  · intro hnot
    have hmfne : draft.missingFields ≠ [] := by
      intro hc
      apply hnot
      simp [Record.missingFields] at hc
      obtain ⟨h1, h2, h3⟩ := hc
      refine ⟨?_, by simpa using h2, by simpa using h3⟩
      cases hdd : draft.date <;> simp [hdd] at h1 ⊢
    refine ⟨?_, ?_, ?_, by rw [hmf]; exact hmfne, ?_⟩
    · unfold RecordHandler.save
      simp [Record.validate, hmf, hmfne]
    · unfold RecordHandler.save
      simp [Record.validate, hmf, hmfne]
    · unfold RecordHandler.save
      simp [Record.validate, hmf, hmfne]
    · intro f
      rw [hmf]
      unfold Record.missingFields
      cases hdd : draft.date <;> cases haa : amountTruthy draft.amount <;>
        cases hcc : truthyStr draft.account <;> simp [hdd, haa, hcc]

/-- C3 witness: a fully populated draft is appended with its timestamp and
    the draft is cleared. -/
theorem claim_C3_save_required_fields_witness :
    (RecordHandler.save 5 draftFull []).records
        = [{ draftFull with recordedAt := some 5 }] ∧
    (RecordHandler.save 5 draftFull []).draft = Record.empty ∧
    (RecordHandler.save 5 draftFull []).reply = .saved := by
  have h := (claim_C3_save_required_fields 5 draftFull []).2.1 (by decide) (by decide) (by decide)
  simpa using h

/-- C10: a draft whose amount is exactly 0 — e.g. parsed from the word
    "free", which the parser maps to 0 — is rejected exactly as if the
    amount were missing: validation produces the same verdict as for an
    absent amount, `amount` is reported missing, and save appends nothing
    and leaves the draft as it was. -/
theorem claim_C10_zero_amount_rejected (r : Record) (now : Nat) (records : List Record)
    (h : r.amount = some Dec.zero) :
    Record.validate r = Record.validate { r with amount := none } ∧
    "amount" ∈ r.missingFields ∧
    (RecordHandler.save now r records).records = records ∧
    (RecordHandler.save now r records).draft = r ∧
    extract_number "free" = some "0" ∧
    currencyParser "free" = (Dec.zero, none) := by
  have hat : amountTruthy r.amount = false := by simp [amountTruthy, h, Dec.zero]
  have hmem : "amount" ∈ r.missingFields := by
    simp [Record.missingFields, hat]
  have hmf : ({ r with recordedAt := some now } : Record).missingFields
      = r.missingFields := by
    simp [Record.missingFields]
  have hne : r.missingFields ≠ [] := by
    intro hc; rw [hc] at hmem; simp at hmem
  refine ⟨?_, hmem, ?_, ?_, by decide, by decide⟩
  · have h2 : amountTruthy (none : Option Dec) = false := rfl
    simp [Record.validate, Record.missingFields, hat, h2]
  · unfold RecordHandler.save
    simp [Record.validate, hmf, hne]
  · unfold RecordHandler.save
    simp [Record.validate, hmf, hne]

/-- C10 witness: the zero-amount draft is not appended and `amount` is
    among its missing fields. -/
theorem claim_C10_zero_amount_rejected_witness :
    (RecordHandler.save 0 draftZeroAmount []).records = [] ∧
    "amount" ∈ draftZeroAmount.missingFields :=
  ⟨(claim_C10_zero_amount_rejected draftZeroAmount 0 [] (by decide)).2.2.1,
   (claim_C10_zero_amount_rejected draftZeroAmount 0 [] (by decide)).2.1⟩

end FinanceTracker

namespace FinanceTracker

/-- C4 counterexample: the unparseable token "abc" and the successfully
    parsed token "free" (amount 0) produce the *same* parser result
    `(0.0, none)` — the unparseable outcome is not distinguishable from a
    parsed amount at the parser's interface; the intermediate numeric
    extraction does distinguish them (`none` vs `some "0"`).  The
    older-revision `utils.currency_parser` raises `ValueError` on the same
    input instead of returning. -/
theorem claim_C4_counterexample :
    currencyParser "abc" = currencyParser "free" ∧
    currencyParser "abc" = (Dec.zero, none) ∧
    extract_number "abc" = none ∧
    extract_number "free" = some "0" ∧
    utilsCurrencyParser "abc" = none := by
  refine ⟨by decide, by decide, by decide, by decide, by decide⟩

/-- C4 (amended): the newer-revision parser never raises — whenever the
    numeric pipeline yields no value it falls back to the best-effort result
    `(0.0, currency)`, which is indistinguishable from a parsed zero amount;
    the explicit unparseable signal exists only one level down, where
    `parse_number` returns `none`, distinct from `"free"`'s parsed `some 0`
    and carried separately from the unknown-currency `none`. -/
theorem claim_C4_unparseable_collapses_to_zero (s : String)
    (h : parse_number (extract_number s) = none) :
    currencyParser s = (Dec.zero, symbol_from_str (extract_currency s)) ∧
    parse_number (extract_number "free") = some ⟨0, 0⟩ := by
  constructor
  · unfold currencyParser
    rw [h]
  · decide

/-- C4 witness: the amended statement at the unparseable input "abc". -/
theorem claim_C4_unparseable_collapses_to_zero_witness :
    currencyParser "abc" = (Dec.zero, symbol_from_str (extract_currency "abc")) :=
  (claim_C4_unparseable_collapses_to_zero "abc" (by decide)).1

/-- C5: the parser treats a separator followed by exactly three trailing
    digits as a thousands group (`1.000`/`1,000` ↦ 1000, while `1.00`/`1,00`
    ↦ 1.00), preserves the sign, rounds to two decimal places
    (`1.2345` ↦ 1.23), and maps every alias of every supported currency to
    its canonical code, so that `parse("-1,000.01 €") = (-1000.01, EUR)` and
    `parse("£1'009") = (1009.00, GBP)`. -/
theorem claim_C5_parser_examples :
    currencyParser "-1,000.01 €" = (⟨-100001, 2⟩, some "EUR") ∧
    (⟨-100001, 2⟩ : Dec).toRat = -1000.01 ∧
    currencyParser "£1'009" = (⟨100900, 2⟩, some "GBP") ∧
    (⟨100900, 2⟩ : Dec).toRat = 1009.00 ∧
    parse_number (some "1.000") = some ⟨1000, 0⟩ ∧
    parse_number (some "1,000") = some ⟨1000, 0⟩ ∧
    parse_number (some "1.00") = some ⟨100, 2⟩ ∧
    parse_number (some "1,00") = some ⟨100, 2⟩ ∧
    currencyParser "1.2345" = (⟨123, 2⟩, none) ∧
    (CURRENCIES.all fun ci => ci.aliases.all fun a =>
      decide (symbol_from_str (some a) = some ci.code)) = true := by
  refine ⟨by decide, ?_, by decide, ?_, by decide, by decide, by decide, by decide,
    by decide, by decide⟩
  · norm_num [Dec.toRat]
  · norm_num [Dec.toRat]

end FinanceTracker

namespace FinanceTracker

/-- C8 counterexample: on a pending list of length 5, clear removes all
    five records — no invocation can leave 3 as the selector "2-3" would;
    the operation accepts no selector at all. -/
theorem claim_C8_counterexample :
    (clear_data pending5).1 = [] ∧
    (clear_data pending5).1.length ≠ 3 ∧
    (clear_data pending5).2.1 = .cleared 5 ∧
    pending5.length = 5 := by
  decide

/-- C8 (amended): the clear operation of `src/record.py` accepts no
    selector: every invocation empties the pending list entirely, reporting
    the number of records removed when there were any and a nothing-to-clear
    message otherwise, and returns to the action-selection state. -/
theorem claim_C8_clear_all (records : List DraftDict) :
    (clear_data records).1 = [] ∧
    ((clear_data records).2.1 = ClearReply.noData ↔ records = []) ∧
    ((clear_data records).2.1 = ClearReply.cleared records.length ↔ records ≠ []) ∧
    (clear_data records).2.2 = .selectingAction := by
  by_cases h : records = []
  · subst h
    refine ⟨rfl, by simp [clear_data], by simp [clear_data], rfl⟩
  · refine ⟨by simp [clear_data, h], by simp [clear_data, h], by simp [clear_data, h],
      by simp [clear_data, h]⟩

/-- C8 witness: clearing the five-record pending list empties it and
    reports five records removed. -/
theorem claim_C8_clear_all_witness :
    (clear_data pending5).1 = [] ∧ (clear_data pending5).2.1 = ClearReply.cleared 5 :=
  ⟨(claim_C8_clear_all pending5).1, (claim_C8_clear_all pending5).2.2.1.mpr (by decide)⟩

/-- C9: cancel is reachable from every state of the record sub-flow (both
    as the Cancel button and the `/cancel` command, via the fallbacks); it
    clears only the draft, leaves the pending list and every record in it
    unchanged, and returns `STOPPING`, which `map_to_parent` converts to the
    parent's `END` — exiting the whole conversation tree instead of
    delegating back to the parent flow.  The newer-revision
    `RecordHandler.cancel` likewise clears only the draft and ends the
    conversation. -/
theorem claim_C9_cancel_clears_draft_only (s : OldSession) (draft : Record) (records : List Record) :
    (record_cancel s).1.draft = [] ∧
    (record_cancel s).1.pending = s.pending ∧
    (record_cancel s).2 = .stopping ∧
    newRecordMapToParent .stopping = some .ended ∧
    newRecordDispatch .input (.button .CANCEL) = some .cancel ∧
    newRecordDispatch .reply (.button .CANCEL) = some .cancel ∧
    newRecordDispatch .input (.command "cancel") = some .cancel ∧
    newRecordDispatch .reply (.command "cancel") = some .cancel ∧
    RecordHandler.cancel draft records = (Record.empty, records, .ENDED) := by
  refine ⟨?_, ?_, ?_, rfl, rfl, rfl, rfl, rfl, ?_⟩
  · unfold record_cancel
    by_cases h : s.draft = [] <;> simp [h]
  · unfold record_cancel
    by_cases h : s.draft = [] <;> simp [h]
  · rfl
  · unfold RecordHandler.cancel
    by_cases h : draft = Record.empty <;> simp [h]

end FinanceTracker
